import Mathlib

/-!
Verification development for the paper-reading repository's core pipeline
(`claude_skills/paper-reader/scripts/download_paper.py`).

The Python source is shallowly embedded below:
  * pure string processing (`extract_text`, the heading regex, Python string
    helpers) becomes executable Lean functions over `String`/`List Char`;
  * the stateful resolver functions (`download_arxiv`, `download_url`) become
    explicit state passing over a file-system model `FS`, with network access
    abstracted as function parameters and a counter of network operations;
  * the CLI entry point `main` becomes `mainModel`, a total function from an
    environment and an argument vector to an output value plus exit code.

The embedding models the ASCII fragment of Python's `str` semantics: the
whitespace class is Python's six ASCII whitespace characters, `\d` is the
ASCII digits, and case folding is ASCII case folding, which is exact for all
inputs appearing in the source's own vocabulary and in the spec's examples.
-/

/-! ## Python string helpers -/

/-- The characters stripped by Python `str.strip()` and matched by `\s`
(ASCII fragment): space, tab, newline, carriage return, vertical tab,
form feed. -/
def pyWsChar (c : Char) : Bool :=
  c = ' ' || c = '\t' || c = '\n' || c = '\r' || c = '\x0b' || c = '\x0c'

/-- Python `str.strip()`: drop leading and trailing whitespace. -/
def pyStrip (s : String) : String :=
  String.mk (((s.toList.dropWhile pyWsChar).reverse.dropWhile pyWsChar).reverse)

/-- Python `str.lower()` (ASCII fragment). -/
def pyLower (s : String) : String :=
  String.mk (s.toList.map Char.toLower)

/-- Python `str.split(sep)` for a one-character separator, on char lists:
keeps empty pieces, and splitting the empty string yields `[[]]`. -/
def splitOnChar (sep : Char) : List Char → List (List Char)
  | [] => [[]]
  | c :: cs =>
    match splitOnChar sep cs with
    | [] => [[c]]
    | h :: t => if c = sep then [] :: h :: t else (c :: h) :: t

/-- Python `text.split('\n')`. -/
def pySplitNl (s : String) : List String :=
  (splitOnChar '\n' s.toList).map String.mk

/-- Python `sep.join(pieces)`. -/
def pyJoin (sep : String) : List String → String
  | [] => ""
  | [x] => x
  | x :: xs => x ++ sep ++ pyJoin sep xs

/-- Python `s.endswith(suffix)`. -/
def pyEndsWith (s suffix : String) : Bool :=
  List.isSuffixOf suffix.toList s.toList

/-- Python `url.split('/')[-1]`: the last segment of the URL path;
`str.split` never returns an empty list, so the default is unreachable. -/
def lastSeg (url : String) : String :=
  String.mk ((splitOnChar '/' url.toList).getLastD [])

/-- `os.path.join` for the shapes used by the script (a directory without a
trailing separator joined with a relative file name). -/
def pathJoin (a b : String) : String :=
  a ++ "/" ++ b

/-! ## The heading regex

The source compiles (with `re.IGNORECASE`, used via `.match`, i.e. as a
prefix match on the stripped line):

  `^(?:\d+\.?\s*)?(abstract|introduction|related\s*work|background|`
  `methodology|method|methods|approach|experiments?|results?|`
  `discussion|conclusion|conclusions|references|acknowledgements?|appendix)`

Because `.match` only asks whether some prefix matches, an alternative
`experiments?` matches exactly when the stem `experiment` is a prefix (the
optional `s?` can always match the empty string); the same holds for
`results?`, `conclusion|conclusions` and `acknowledgements?`, and
`methodology` is likewise subsumed by `method`.  The alternatives are kept in
source order below.  The optional group `(?:\d+\.?\s*)?` is deterministic for
this vocabulary: every alternative starts with a letter, so a partial match of
`\d+`, of `\.?` against a present dot, or of `\s*` against pending whitespace
can never be completed, and maximal munch is the only candidate. -/

/-- Match the (lowercase) pattern `p` case-insensitively against a prefix of
`cs`; on success return the unconsumed remainder. -/
def matchCI : List Char → List Char → Option (List Char)
  | [], rest => some rest
  | _ :: _, [] => none
  | p :: ps, c :: cs => if c.toLower = p then matchCI ps cs else none

/-- The alternative `related\s*work` as a prefix matcher. -/
def relatedWorkAt (cs : List Char) : Bool :=
  match matchCI "related".toList cs with
  | none => false
  | some rest => (matchCI "work".toList (rest.dropWhile pyWsChar)).isSome

/-- The vocabulary group of the regex as a prefix matcher, in source order. -/
def headingWordAt (cs : List Char) : Bool :=
  (matchCI "abstract".toList cs).isSome ||
  (matchCI "introduction".toList cs).isSome ||
  relatedWorkAt cs ||
  (matchCI "background".toList cs).isSome ||
  (matchCI "methodology".toList cs).isSome ||
  (matchCI "method".toList cs).isSome ||
  (matchCI "methods".toList cs).isSome ||
  (matchCI "approach".toList cs).isSome ||
  (matchCI "experiment".toList cs).isSome ||
  (matchCI "result".toList cs).isSome ||
  (matchCI "discussion".toList cs).isSome ||
  (matchCI "conclusion".toList cs).isSome ||
  (matchCI "references".toList cs).isSome ||
  (matchCI "acknowledgement".toList cs).isSome ||
  (matchCI "appendix".toList cs).isSome

/-- The tail `\.?\s*` of the optional numeral group: one optional dot, then
maximal whitespace. -/
def dropDotWs (cs : List Char) : List Char :=
  match cs with
  | '.' :: rest => rest.dropWhile pyWsChar
  | _ => cs.dropWhile pyWsChar

/-- `section_pattern.match` on a char list: the vocabulary at the start, or
after a non-empty digit run, an optional dot and whitespace (`(?:\d+\.?\s*)?`). -/
def isHeadingChars (cs : List Char) : Bool :=
  headingWordAt cs ||
    (!(cs.takeWhile Char.isDigit).isEmpty &&
      headingWordAt (dropDotWs (cs.dropWhile Char.isDigit)))

/-- `bool(section_pattern.match(line))` for an already stripped line. -/
def sectionHeadingMatch (line : String) : Bool :=
  isHeadingChars line.toList

/-! ## `extract_text` -/

/-- One output record of `extract_text`'s `sections` list. -/
structure Section where
  title : String
  content : String
deriving DecidableEq, Repr

/-- The mutable segmentation state of `extract_text`'s line loop:
`current_section` (title and buffered content lines) plus the `sections`
accumulator. -/
structure SegState where
  curTitle : String
  curContent : List String
  sections : List Section
deriving DecidableEq, Repr

/-- The body of `extract_text`'s per-line loop:

```
line_stripped = line.strip()
match = section_pattern.match(line_stripped)
if match:
    if current_section["content"]:
        current_section["content"] = "\n".join(current_section["content"])
        sections.append(current_section)
    current_section = {"title": line_stripped, "content": []}
else:
    if line_stripped:
        current_section["content"].append(line_stripped)
```
-/
def processLine (st : SegState) (line : String) : SegState :=
  let ls := pyStrip line
  if sectionHeadingMatch ls then
    if st.curContent.isEmpty then
      { curTitle := ls, curContent := [], sections := st.sections }
    else
      { curTitle := ls, curContent := [],
        sections := st.sections ++
          [{ title := st.curTitle, content := pyJoin "\n" st.curContent }] }
  else if ls = "" then st
  else { st with curContent := st.curContent ++ [ls] }

/-- The title scan of `extract_text`.  In the source it runs inside the page
loop guarded by `page_num == 0 and not title`; `title` is only ever assigned
under that guard (to a string of length > 10, hence truthy), so the loop is
equivalent to scanning the first page once:

```
lines = text.strip().split('\n')
for line in lines[:5]:
    line = line.strip()
    if len(line) > 10 and len(line) < 200:
        title = line
        break
```
-/
def titleOfPage (text : String) : Option String :=
  ((pySplitNl (pyStrip text)).take 5).findSome? fun line =>
    let l := pyStrip line
    if 10 < l.length ∧ l.length < 200 then some l else none

/-- The dictionary returned by `extract_text`. -/
structure ExtractResult where
  title : Option String
  pdf_path : String
  pages : Nat
  text : String
  sections : List Section
deriving DecidableEq, Repr

/-- `extract_text`, with the PDF document abstracted as its list of per-page
extracted texts (`page.get_text()` in page order).  The final in-progress
section is flushed after the loop under the same non-empty rule. -/
def extract_text (pdf_path : String) (docPages : List String) : ExtractResult :=
  let title :=
    match docPages with
    | [] => none
    | firstPage :: _ => titleOfPage firstPage
  let lines := (docPages.map pySplitNl).flatten
  let st := lines.foldl processLine
    { curTitle := "Beginning", curContent := [], sections := [] }
  let sections :=
    if st.curContent.isEmpty then st.sections
    else st.sections ++
      [{ title := st.curTitle, content := pyJoin "\n" st.curContent }]
  { title := title
    pdf_path := pdf_path
    pages := docPages.length
    text := pyJoin "\n\n" docPages
    sections := sections }

/-! ## Source resolver (`download_arxiv`, `download_url`)

The on-disk cache is modelled as an association list from paths to file
contents (newest binding first, as produced by a write).  Network access is
abstracted: `index : String → Option String` models the arXiv search plus PDF
download for an id (`none` = no results), and `net : String → Option String`
models `requests.get` (`none` = network error or non-2xx status, i.e.
`raise_for_status` throwing).  Each resolver returns, on success, the local
path, the file system after the call, and the number of network operations
performed. -/

/-- File-system model: an association list `path ↦ contents`. -/
structure FS where
  files : List (String × String)
deriving DecidableEq, Repr

/-- `os.path.exists` on the model. -/
def fsHas (fs : FS) (path : String) : Bool :=
  (List.lookup path fs.files).isSome

/-- Writing a file (`open(cache_path, 'wb').write(...)`): the new binding
shadows any previous one. -/
def fsWrite (fs : FS) (path contents : String) : FS :=
  ⟨(path, contents) :: fs.files⟩

/-- `str.replace("arxiv:", "")`: remove every occurrence of the six-character
pattern `arxiv:`, scanning left to right. -/
def stripArxivAux : List Char → List Char
  | 'a' :: 'r' :: 'x' :: 'i' :: 'v' :: ':' :: rest => stripArxivAux rest
  | c :: cs => c :: stripArxivAux cs
  | [] => []

/-- `arxiv_id.lower().replace("arxiv:", "").strip()`. -/
def normalizeArxivId (s : String) : String :=
  pyStrip (String.mk (stripArxivAux (pyLower s).toList))

/-- `os.path.join(cache_dir, f"arxiv_{arxiv_id}.pdf")`. -/
def arxivCachePath (cache_dir aid : String) : String :=
  pathJoin cache_dir ("arxiv_" ++ aid ++ ".pdf")

/-- `download_arxiv(arxiv_id, cache_dir)`.  A cache hit returns immediately
with zero network operations; a miss costs one index query plus one PDF
download (2 operations) and writes the cache file. -/
def download_arxiv (index : String → Option String) (arxiv_id cache_dir : String)
    (fs : FS) : Except String (String × FS × Nat) :=
  let aid := normalizeArxivId arxiv_id
  let cache_path := arxivCachePath cache_dir aid
  if fsHas fs cache_path then .ok (cache_path, fs, 0)
  else
    match index aid with
    | none => .error ("arXiv paper not found: " ++ aid)
    | some pdfBytes => .ok (cache_path, fsWrite fs cache_path pdfBytes, 2)

/-- The cache file name chosen by `download_url`:

```
filename = url.split('/')[-1]
if not filename.endswith('.pdf'):
    filename = f"{hash(url) & 0xFFFFFFFF}.pdf"
```

Python's built-in `hash` on strings is salted per process
(`PYTHONHASHSEED`), so it is modelled as a function parameter
`pyhash : String → Int`; `& 0xFFFFFFFF` on a Python int is reduction mod
`2^32` into `[0, 2^32)`. -/
def urlFilename (pyhash : String → Int) (url : String) : String :=
  let filename := lastSeg url
  if pyEndsWith filename ".pdf" then filename
  else ((pyhash url) % 4294967296).toNat.repr ++ ".pdf"

/-- `os.path.join(cache_dir, filename)` in `download_url`. -/
def urlCachePath (pyhash : String → Int) (url cache_dir : String) : String :=
  pathJoin cache_dir (urlFilename pyhash url)

/-- `download_url(url, cache_dir)`.  A cache hit returns immediately with
zero network operations; a miss performs one HTTP GET and writes the raw
response bytes to the cache path. -/
def download_url (net : String → Option String) (pyhash : String → Int)
    (url cache_dir : String) (fs : FS) : Except String (String × FS × Nat) :=
  let cache_path := urlCachePath pyhash url cache_dir
  if fsHas fs cache_path then .ok (cache_path, fs, 0)
  else
    match net url with
    | none => .error ("Download failed: " ++ url)
    | some body => .ok (cache_path, fsWrite fs cache_path body, 1)

/-! ## CLI entry point (`main`) -/

/-- The three dispatch targets of `main`'s `if/elif` chain, plus the
`else: raise ValueError(f"Unknown source type: ...")` branch. -/
inductive Route where
  | arxiv
  | localFile
  | url
  | unknown
deriving DecidableEq, Repr

/-- The `if source_type == "arxiv" / "local" / "url" / else` chain applied to
the already lowered source type. -/
def routeOf (source_type : String) : Route :=
  if source_type = "arxiv" then .arxiv
  else if source_type = "local" then .localFile
  else if source_type = "url" then .url
  else .unknown

/-- The ambient world of one invocation: the abstracted network functions,
the per-process string hash, the file system (cache directory and local
files), the page extractor (`fitz.open` plus `page.get_text()`, where
`.error` models an unopenable document), and the platform temp directory. -/
structure Env where
  index : String → Option String
  net : String → Option String
  pyhash : String → Int
  fs : FS
  pages : String → Except String (List String)
  tmpDir : String

/-- The `try` block's source dispatch:

```
if source_type == "arxiv":      pdf_path = download_arxiv(source, cache_dir)
elif source_type == "local":    (check os.path.exists, else ValueError)
elif source_type == "url":      pdf_path = download_url(source, cache_dir)
else:                           raise ValueError(f"Unknown source type: ...")
```
-/
def resolveSource (env : Env) (source_type source cache_dir : String) :
    Except String (String × FS × Nat) :=
  match routeOf source_type with
  | .arxiv => download_arxiv env.index source cache_dir env.fs
  | .localFile =>
      if fsHas env.fs source then .ok (source, env.fs, 0)
      else .error ("File not found: " ++ source)
  | .url => download_url env.net env.pyhash source cache_dir env.fs
  | .unknown => .error ("Unknown source type: " ++ source_type)

/-- The usage message printed (as a JSON error object) when fewer than two
positional arguments are given. -/
def usageMsg : String :=
  "Usage: download_paper.py <arxiv|local|url> <source>"

/-- The success JSON object: the `extract_text` result augmented with the raw
source value and the lowered source type. -/
structure SuccessDoc where
  title : Option String
  pdf_path : String
  pages : Nat
  text : String
  sections : List Section
  source : String
  source_type : String
deriving DecidableEq, Repr

/-- What `main` prints: either the success document or a single
`{"error": message}` envelope.  The constructor shapes guarantee that no
success field can accompany an error message. -/
inductive Output where
  | success : SuccessDoc → Output
  | failure : String → Output
deriving DecidableEq, Repr

/-- `os.path.join(tempfile.gettempdir(), "paper_cache")`. -/
def cacheDirOf (env : Env) : String :=
  pathJoin env.tmpDir "paper_cache"

/-- `main()`: argument check, lowering of the source type, dispatch, page
extraction, result assembly.  The second component is the process exit code
(`sys.exit(1)` on the usage error and in the `except Exception` handler,
implicit 0 on success).  `argv` is the full `sys.argv` including the script
name, so fewer than two positional arguments means `argv.length < 3`. -/
def mainModel (env : Env) (argv : List String) : Output × Nat :=
  match argv with
  | _ :: st :: src :: _ =>
    let source_type := pyLower st
    match resolveSource env source_type src (cacheDirOf env) with
    | .error e => (Output.failure e, 1)
    | .ok (pdf_path, _, _) =>
      match env.pages pdf_path with
      | .error e => (Output.failure e, 1)
      | .ok pgs =>
        let r := extract_text pdf_path pgs
        (Output.success
          { title := r.title, pdf_path := r.pdf_path, pages := r.pages,
            text := r.text, sections := r.sections,
            source := src, source_type := source_type }, 0)
  | _ => (Output.failure usageMsg, 1)

/-! ## Claim-side definitions

These definitions follow the words of the spec/claims (not the source); they
exist to be compared with the source-derived definitions above. -/

/-- Lowercasing of a char list (used to phrase "case-insensitively ... starts
with" on the claim side). -/
def lowerChars (cs : List Char) : List Char :=
  cs.map Char.toLower

/-- The claimed heading vocabulary as literal words.  The parenthetical-`s`
variants `experiment(s)`, `result(s)`, `conclusion(s)`, `acknowledgement(s)`
are prefix conditions, so each is subsumed by its singular stem and the stems
alone are listed; `related work` is handled separately. -/
def specVocab : List String :=
  ["abstract", "introduction", "background", "methodology", "method",
   "methods", "approach", "experiment", "result", "discussion", "conclusion",
   "references", "acknowledgement", "appendix"]

/-- Claim C6 as stated: after an optional numeral-and-dot prefix, the line
starts case-insensitively with one of the vocabulary words, where
`related work` is the literal two-word string. -/
def headingSpecStart (cs : List Char) : Bool :=
  (specVocab ++ ["related work"]).any fun w =>
    List.isPrefixOf w.toList (lowerChars cs)

/-- Claim C6 as stated, at the line level. -/
def headingSpecC6 (line : String) : Bool :=
  headingSpecStart line.toList ||
    (!(line.toList.takeWhile Char.isDigit).isEmpty &&
      headingSpecStart (dropDotWs (line.toList.dropWhile Char.isDigit)))

/-- The amended `related work` vocabulary entry: `related`, then any run
(possibly empty) of whitespace, then `work`, case-insensitively. -/
def relatedFlexAt (cs : List Char) : Bool :=
  List.isPrefixOf "related".toList (lowerChars cs) &&
  List.isPrefixOf "work".toList (lowerChars ((cs.drop 7).dropWhile pyWsChar))

/-- Amended claim C6: the vocabulary start condition with the flexible
`related work` entry. -/
def vocabStartA (cs : List Char) : Bool :=
  (specVocab.any fun w => List.isPrefixOf w.toList (lowerChars cs)) ||
    relatedFlexAt cs

/-- Amended claim C6 at the line level. -/
def headingSpecC6A (line : String) : Bool :=
  vocabStartA line.toList ||
    (!(line.toList.takeWhile Char.isDigit).isEmpty &&
      vocabStartA (dropDotWs (line.toList.dropWhile Char.isDigit)))

/-- Claim C2's title rule as stated: among the first five NON-EMPTY trimmed
lines of the first page, the first whose trimmed length is strictly between
10 and 200. -/
def titleSpecC2 (text : String) : Option String :=
  ((((pySplitNl text).map pyStrip).filter fun l => decide (l ≠ "")).take 5).find?
    fun t => decide (10 < t.length ∧ t.length < 200)

/-- Amended claim C2's title rule: among the first five lines of the page's
stripped text (empty lines counting toward the five), the first whose trimmed
length is strictly between 10 and 200. -/
def titleRuleSpec (text : String) : Option String :=
  (((pySplitNl (pyStrip text)).take 5).map pyStrip).find?
    fun t => decide (10 < t.length ∧ t.length < 200)

/-! ## Helper lemmas -/

theorem isPrefixOfSelfAppend : ∀ l m : List Char, List.isPrefixOf l (l ++ m) = true := by
  intro l m
  induction l with
  | nil => simp
  | cons a as ih => simp [List.isPrefixOf, ih]

theorem isPrefixOfExt : ∀ u v w : List Char,
    List.isPrefixOf u v = true → List.isPrefixOf u (v ++ w) = true := by
  intro u
  induction u with
  | nil => intro v w _; simp
  | cons a as ih =>
    intro v w h
    cases v with
    | nil => simp [List.isPrefixOf] at h
    | cons b bs =>
      simp only [List.cons_append, List.isPrefixOf, Bool.and_eq_true] at h ⊢
      exact ⟨h.1, ih bs w h.2⟩

theorem toListAppend (a b : String) : (a ++ b).toList = a.toList ++ b.toList := rfl

theorem pyEndsWithAppend (a b : String) : pyEndsWith (a ++ b) b = true := by
  unfold pyEndsWith List.isSuffixOf
  rw [toListAppend, List.reverse_append]
  exact isPrefixOfSelfAppend _ _

theorem pyEndsWithExt (a s t : String) (h : pyEndsWith s t = true) :
    pyEndsWith (a ++ s) t = true := by
  unfold pyEndsWith List.isSuffixOf at h ⊢
  rw [toListAppend, List.reverse_append]
  exact isPrefixOfExt _ _ _ h

theorem appendNeEmpty (a b : String) (h : a ≠ "") : a ++ b ≠ "" := by
  intro hc
  apply h
  have hl : a.toList ++ b.toList = [] := by
    rw [← toListAppend, hc]; decide
  have ha : a.toList = [] := (List.append_eq_nil.mp hl).1
  cases a with
  | mk la =>
    simp only [String.toList] at ha
    rw [ha]

theorem pyJoinNeEmpty (sep : String) :
    ∀ ls : List String, ls ≠ [] → (∀ l ∈ ls, l ≠ "") → pyJoin sep ls ≠ "" := by
  intro ls
  match ls with
  | [] => intro h _; exact absurd rfl h
  | [x] =>
    intro _ hl
    simpa [pyJoin] using hl x (by simp)
  | x :: y :: ys =>
    intro _ hl
    have hx : x ≠ "" := hl x (by simp)
    show x ++ sep ++ pyJoin sep (y :: ys) ≠ ""
    exact appendNeEmpty _ _ (appendNeEmpty _ _ hx)

theorem matchCIisSome (w : List Char) (hw : ∀ a ∈ w, a.toLower = a) :
    ∀ cs : List Char, (matchCI w cs).isSome = List.isPrefixOf w (lowerChars cs) := by
  induction w with
  | nil => intro cs; simp [matchCI, List.isPrefixOf]
  | cons p ps ih =>
    intro cs
    have hps : ∀ a ∈ ps, a.toLower = a := fun a ha => hw a (by simp [ha])
    cases cs with
    | nil => simp [matchCI, lowerChars, List.isPrefixOf]
    | cons c cs' =>
      by_cases h : c.toLower = p
      · simp [matchCI, h, lowerChars, List.isPrefixOf, ih hps]
      · simp [matchCI, h, lowerChars, List.isPrefixOf, beq_iff_eq, Ne.symm h]

theorem matchCIdrop : ∀ w cs r : List Char, matchCI w cs = some r → r = cs.drop w.length := by
  intro w
  induction w with
  | nil =>
    intro cs r h
    simp [matchCI] at h
    simp [h]
  | cons p ps ih =>
    intro cs r h
    cases cs with
    | nil => simp [matchCI] at h
    | cons c cs' =>
      by_cases hc : c.toLower = p
      · simp only [matchCI, if_pos hc] at h
        simpa using ih cs' r h
      · simp [matchCI, hc] at h

theorem relatedWorkAtEq (cs : List Char) : relatedWorkAt cs = relatedFlexAt cs := by
  have hlen : ("related".toList).length = 7 := by decide
  cases h : matchCI "related".toList cs with
  | none =>
    have h1 := matchCIisSome "related".toList (by decide) cs
    rw [h] at h1
    simp only [Option.isSome_none] at h1
    have hred : relatedWorkAt cs = false := by
      unfold relatedWorkAt
      rw [h]
    rw [hred]
    unfold relatedFlexAt
    rw [← h1]
    simp
  | some rest =>
    have h1 := matchCIisSome "related".toList (by decide) cs
    rw [h] at h1
    simp only [Option.isSome_some] at h1
    have h2 := matchCIdrop "related".toList cs rest h
    rw [hlen] at h2
    have h3 := matchCIisSome "work".toList (by decide) (rest.dropWhile pyWsChar)
    have hred : relatedWorkAt cs = (matchCI "work".toList (rest.dropWhile pyWsChar)).isSome := by
      unfold relatedWorkAt
      rw [h]
    rw [hred, h3]
    unfold relatedFlexAt
    rw [← h1, h2]
    simp

theorem headingWordAtEq (cs : List Char) : headingWordAt cs = vocabStartA cs := by
  have h01 := matchCIisSome "abstract".toList (by decide) cs
  have h02 := matchCIisSome "introduction".toList (by decide) cs
  have h03 := relatedWorkAtEq cs
  have h04 := matchCIisSome "background".toList (by decide) cs
  have h05 := matchCIisSome "methodology".toList (by decide) cs
  have h06 := matchCIisSome "method".toList (by decide) cs
  have h07 := matchCIisSome "methods".toList (by decide) cs
  have h08 := matchCIisSome "approach".toList (by decide) cs
  have h09 := matchCIisSome "experiment".toList (by decide) cs
  have h10 := matchCIisSome "result".toList (by decide) cs
  have h11 := matchCIisSome "discussion".toList (by decide) cs
  have h12 := matchCIisSome "conclusion".toList (by decide) cs
  have h13 := matchCIisSome "references".toList (by decide) cs
  have h14 := matchCIisSome "acknowledgement".toList (by decide) cs
  have h15 := matchCIisSome "appendix".toList (by decide) cs
  unfold headingWordAt vocabStartA
  rw [h01, h02, h03, h04, h05, h06, h07, h08, h09, h10, h11, h12, h13, h14, h15]
  simp only [specVocab, List.any_cons, List.any_nil]
  cases hrf : relatedFlexAt cs
  · simp [Bool.or_assoc]
  · simp [Bool.or_assoc]

theorem sectionHeadingMatchEqSpecA (line : String) :
    sectionHeadingMatch line = headingSpecC6A line := by
  unfold sectionHeadingMatch isHeadingChars headingSpecC6A
  rw [headingWordAtEq, headingWordAtEq]

theorem findSomeStripEq (p : String → Prop) [DecidablePred p] :
    ∀ l : List String,
      (l.findSome? fun line =>
        let t := pyStrip line
        if p t then some t else none) =
      ((l.map pyStrip).find? fun t => decide (p t)) := by
  intro l
  induction l with
  | nil => rfl
  | cons a as ih =>
    by_cases h : p (pyStrip a)
    · simp [List.findSome?_cons, List.find?, h]
    · simp [List.findSome?_cons, List.find?, h, ih]

/-- The loop invariant behind "empty sections never appear in output": every
buffered content line is non-empty, and every emitted section has non-empty
content. -/
def stGood (st : SegState) : Prop :=
  (∀ l ∈ st.curContent, l ≠ "") ∧ (∀ s ∈ st.sections, s.content ≠ "")

theorem processLineGood (st : SegState) (line : String) (h : stGood st) :
    stGood (processLine st line) := by
  obtain ⟨hc, hs⟩ := h
  unfold processLine
  by_cases hm : sectionHeadingMatch (pyStrip line) = true
  · rw [if_pos hm]
    by_cases he : st.curContent.isEmpty
    · rw [if_pos he]
      exact ⟨by simp, hs⟩
    · rw [if_neg he]
      refine ⟨by simp, ?_⟩
      intro s hsm
      rcases List.mem_append.mp hsm with h1 | h2
      · exact hs s h1
      · have h3 : s = { title := st.curTitle, content := pyJoin "\n" st.curContent } := by
          simpa using h2
        rw [h3]
        exact pyJoinNeEmpty "\n" st.curContent
          (by simpa [List.isEmpty_iff] using he) hc
  · rw [if_neg hm]
    by_cases he : pyStrip line = ""
    · rw [if_pos he]
      exact ⟨hc, hs⟩
    · rw [if_neg he]
      refine ⟨?_, hs⟩
      intro l hl
      rcases List.mem_append.mp hl with h1 | h2
      · exact hc l h1
      · have h3 : l = pyStrip line := by simpa using h2
        rw [h3]
        exact he

theorem foldlGood (lines : List String) :
    ∀ st, stGood st → stGood (lines.foldl processLine st) := by
  induction lines with
  | nil => intro st h; exact h
  | cons a as ih =>
    intro st h
    exact ih _ (processLineGood st a h)

theorem extractTextSectionsGood (path : String) (docPages : List String) :
    ∀ sec ∈ (extract_text path docPages).sections, sec.content ≠ "" := by
  intro sec hmem
  simp only [extract_text] at hmem
  set st := ((docPages.map pySplitNl).flatten).foldl processLine
      { curTitle := "Beginning", curContent := [], sections := [] } with hstdef
  have hst : stGood st := foldlGood _ _ ⟨by simp, by simp⟩
  by_cases he : st.curContent.isEmpty
  · rw [if_pos he] at hmem
    exact hst.2 sec hmem
  · rw [if_neg he] at hmem
    rcases List.mem_append.mp hmem with h1 | h2
    · exact hst.2 sec h1
    · have h3 : sec = { title := st.curTitle, content := pyJoin "\n" st.curContent } := by
        simpa using h2
      rw [h3]
      exact pyJoinNeEmpty "\n" st.curContent (by simpa [List.isEmpty_iff] using he) hst.1

/-! ## Concrete inputs used by the claims -/

/-- The single-page text of the spec's end-to-end literal case (claim C1). -/
def c1Page : String :=
  "My Paper\n\nAbstract\nThis is the abstract.\n\nConclusion\nThe end."

/-- A first page whose five first raw lines include empty ones: the sole
non-empty lines are `a` and `A Valid Title Here` (claim C2). -/
def c2BadPage : String :=
  "a\n\n\n\n\nA Valid Title Here"

/-- The claim C2 boundary example: lines `Hi`, `A`*201, `A Valid Title
Here`. -/
def c2GoodPage : String :=
  "Hi\n" ++ String.mk (List.replicate 201 'A') ++ "\nA Valid Title Here"

/-! ## Claim theorems -/

/-- C1 (counterexample): on the exact page text of the claim, the code's
title is NOT `"My Paper"` (that line has only 8 characters, and the title
heuristic requires strictly more than 10), and the sections are NOT the
claimed two records (the pre-heading line `"My Paper"` is emitted as a
`"Beginning"` section). -/
theorem c1_counterexample :
    (extract_text "paper.pdf" [c1Page]).pages = 1 ∧
    (extract_text "paper.pdf" [c1Page]).title ≠ some "My Paper" ∧
    (extract_text "paper.pdf" [c1Page]).sections ≠
      [{ title := "Abstract", content := "This is the abstract." },
       { title := "Conclusion", content := "The end." }] := by
  refine ⟨by decide, by decide, by decide⟩

/-- C1 (amended): for the single-page document with extracted page text
`"My Paper\n\nAbstract\nThis is the abstract.\n\nConclusion\nThe end."`,
the extraction result has title `"This is the abstract."` (the first of the
page's first five lines longer than 10 characters — `"My Paper"` has only
8), pages = 1, and sections
`[{Beginning, "My Paper"}, {Abstract, "This is the abstract."},
{Conclusion, "The end."}]`. -/
theorem c1_literal_case :
    (extract_text "paper.pdf" [c1Page]).title = some "This is the abstract." ∧
    (extract_text "paper.pdf" [c1Page]).pages = 1 ∧
    (extract_text "paper.pdf" [c1Page]).sections =
      [{ title := "Beginning", content := "My Paper" },
       { title := "Abstract", content := "This is the abstract." },
       { title := "Conclusion", content := "The end." }] := by
  refine ⟨by decide, by decide, by decide⟩

/-- C2 (counterexample): the code scans the first five RAW lines of the
stripped first-page text, counting empty lines toward the five, not the
first five non-empty lines as claimed.  On the page
`"a\n\n\n\n\nA Valid Title Here"` the code finds no title, while the
claimed rule (`titleSpecC2`, literally following the claim's words) finds
`"A Valid Title Here"`. -/
theorem c2_counterexample :
    (extract_text "x.pdf" [c2BadPage]).title = none ∧
    titleSpecC2 c2BadPage = some "A Valid Title Here" := by
  refine ⟨by decide, by decide⟩

set_option maxRecDepth 8000 in
/-- C2 (amended): title detection scans only the first page: among the first
five lines of the page's stripped text (each trimmed, with empty lines
counting toward the five), the first whose trimmed length is strictly
greater than 10 and strictly less than 200 becomes the title, and if none of
those five qualifies the title is absent; in particular, for first-page
lines `["Hi", "A"*201, "A Valid Title Here"]` the detected title equals
`"A Valid Title Here"`. -/
theorem c2_title_rule :
    (∀ path p rest, (extract_text path (p :: rest)).title = titleRuleSpec p) ∧
    (extract_text "x.pdf" [c2GoodPage]).title = some "A Valid Title Here" := by
  constructor
  · intro path p rest
    show titleOfPage p = titleRuleSpec p
    unfold titleOfPage titleRuleSpec
    exact findSomeStripEq (fun t => 10 < t.length ∧ t.length < 200) _
  · decide

/-- C9: a document with zero pages is not an error: extraction returns
title = none, pages = 0, sections = [], text = "". -/
theorem c9_zero_pages (path : String) :
    extract_text path [] =
      { title := none, pdf_path := path, pages := 0, text := "", sections := [] } := rfl

/-- C5: the segmentation transition rule.  On a heading line the current
section is appended only if it holds at least one (non-empty) content line
and is otherwise discarded; non-heading non-empty lines are appended
trimmed; non-heading empty lines are dropped; every emitted section has
non-empty content (also after the final flush); and the page text
`"Introduction\nAbstract\nHello world"` yields exactly one section,
`{Abstract, "Hello world"}`. -/
theorem c5_segmentation_rule :
    (∀ st line, sectionHeadingMatch (pyStrip line) = true → st.curContent = [] →
       processLine st line =
         { curTitle := pyStrip line, curContent := [], sections := st.sections }) ∧
    (∀ st line, sectionHeadingMatch (pyStrip line) = true → st.curContent ≠ [] →
       processLine st line =
         { curTitle := pyStrip line, curContent := [],
           sections := st.sections ++
             [{ title := st.curTitle, content := pyJoin "\n" st.curContent }] }) ∧
    (∀ st line, sectionHeadingMatch (pyStrip line) = false → pyStrip line ≠ "" →
       processLine st line = { st with curContent := st.curContent ++ [pyStrip line] }) ∧
    (∀ st line, sectionHeadingMatch (pyStrip line) = false → pyStrip line = "" →
       processLine st line = st) ∧
    (∀ path docPages, ∀ sec ∈ (extract_text path docPages).sections, sec.content ≠ "") ∧
    (extract_text "x.pdf" ["Introduction\nAbstract\nHello world"]).sections =
      [{ title := "Abstract", content := "Hello world" }] := by
  refine ⟨?_, ?_, ?_, ?_, extractTextSectionsGood, by decide⟩
  · intro st line h1 h2
    unfold processLine
    rw [if_pos h1, if_pos (by simp [h2])]
  · intro st line h1 h2
    unfold processLine
    rw [if_pos h1, if_neg (by simpa [List.isEmpty_iff] using h2)]
  · intro st line h1 h2
    unfold processLine
    rw [if_neg (by simp [h1]), if_neg h2]
  · intro st line h1 h2
    unfold processLine
    rw [if_neg (by simp [h1]), if_pos h2]

/-- C5 (witness): the four transition rules and the non-emptiness guarantee
at concrete inputs. -/
theorem c5_segmentation_rule_witness :
    processLine { curTitle := "Beginning", curContent := [], sections := [] } "Abstract" =
      { curTitle := "Abstract", curContent := [], sections := [] } ∧
    processLine { curTitle := "Beginning", curContent := ["My Paper"], sections := [] }
        "2. Results" =
      { curTitle := "2. Results", curContent := [],
        sections := [{ title := "Beginning", content := "My Paper" }] } ∧
    processLine { curTitle := "Abstract", curContent := [], sections := [] }
        "  Hello world  " =
      { curTitle := "Abstract", curContent := ["Hello world"], sections := [] } ∧
    processLine { curTitle := "Abstract", curContent := [], sections := [] } "   " =
      { curTitle := "Abstract", curContent := [], sections := [] } ∧
    ({ title := "Abstract", content := "Hello world" } : Section).content ≠ "" :=
  ⟨c5_segmentation_rule.1 _ "Abstract" (by decide) rfl,
   c5_segmentation_rule.2.1 _ "2. Results" (by decide) (by decide),
   c5_segmentation_rule.2.2.1 _ "  Hello world  " (by decide) (by decide),
   c5_segmentation_rule.2.2.2.1 _ "   " (by decide) (by decide),
   c5_segmentation_rule.2.2.2.2.1 "x.pdf" ["Introduction\nAbstract\nHello world"]
     { title := "Abstract", content := "Hello world" } (by decide)⟩

/-- C6 (counterexample): the regex alternative `related\s*work` allows the
two words to be juxtaposed without whitespace, so the trimmed line
`"relatedwork"` is classified as a heading by the code although it does not
start with any of the claim's literal vocabulary entries (in particular not
with `"related work"`). -/
theorem c6_counterexample :
    sectionHeadingMatch "relatedwork" = true ∧ headingSpecC6 "relatedwork" = false := by
  refine ⟨by decide, by decide⟩

/-- C6 (amended): a trimmed line is classified as a heading if and only if,
after an optional leading numeral-and-dot prefix and whitespace, it starts
(case-insensitively, prefix match) with one of the fixed vocabulary words,
where the `related work` entry matches `related`, any run (possibly empty)
of whitespace, then `work`; when it matches, the full trimmed line becomes
the new section's title. -/
theorem c6_heading_vocabulary :
    (∀ line, sectionHeadingMatch line = headingSpecC6A line) ∧
    (∀ st line, sectionHeadingMatch (pyStrip line) = true →
       (processLine st line).curTitle = pyStrip line) := by
  refine ⟨sectionHeadingMatchEqSpecA, ?_⟩
  intro st line h
  unfold processLine
  rw [if_pos h]
  by_cases he : st.curContent.isEmpty
  · rw [if_pos he]
  · rw [if_neg he]

/-- C6 (witness): the amended equivalence and the title rule at concrete
inputs. -/
theorem c6_heading_vocabulary_witness :
    sectionHeadingMatch "2. Results and Discussion" =
      headingSpecC6A "2. Results and Discussion" ∧
    (processLine { curTitle := "Beginning", curContent := ["x"], sections := [] }
        "  2. Results and Discussion  ").curTitle = "2. Results and Discussion" :=
  ⟨c6_heading_vocabulary.1 "2. Results and Discussion",
   c6_heading_vocabulary.2 _ "  2. Results and Discussion  " (by decide)⟩

/-! ## Concrete environments and stub network functions -/

/-- A minimal concrete environment: empty cache, failing network and
extractor, zero hash. -/
def env0 : Env :=
  { index := fun _ => none, net := fun _ => none, pyhash := fun _ => 0,
    fs := ⟨[]⟩, pages := fun _ => Except.error "cannot open document",
    tmpDir := "/tmp" }

/-- `env0` with one local file `f.pdf` present (the page extractor still
fails). -/
def env1 : Env :=
  { env0 with fs := ⟨[("f.pdf", "BYTES")]⟩ }

/-- One possible per-process string hash. -/
def hashSeedA : String → Int := fun _ => 0

/-- Another possible per-process string hash (a different hash seed). -/
def hashSeedB : String → Int := fun _ => 1

/-- An arXiv index that finds every id. -/
def idxPdf : String → Option String := fun _ => some "PDFBYTES"

/-- An arXiv index that finds nothing (also: a stand-in for "the network is
never consulted"). -/
def idxNone : String → Option String := fun _ => none

/-- An HTTP backend that answers every GET. -/
def netPdf : String → Option String := fun _ => some "RESPONSE"

/-- An HTTP backend that fails every GET. -/
def netNone : String → Option String := fun _ => none

/-- The cache path of arXiv id `1234.5678` under `/tmp/paper_cache`. -/
def arxivPathW : String := "/tmp/paper_cache/arxiv_1234.5678.pdf"

/-- A cache that already holds that arXiv paper. -/
def fsC7 : FS := ⟨[(arxivPathW, "PDFBYTES")]⟩

/-! ## Resolver and CLI claim theorems -/

/-- C3: for every URL the derived cache path ends in `".pdf"` (this half of
the claim holds for every hash), but the file name for a URL whose last
segment does not end in `".pdf"` is built from Python's per-process salted
`hash(url)`, so it is NOT a deterministic function of the URL text: two hash
seeds give two different names for the same URL. -/
theorem c3_url_cache_name :
    (∀ h url dir, pyEndsWith (urlCachePath h url dir) ".pdf" = true) ∧
    urlFilename hashSeedA "http://example.com/paper" = "0.pdf" ∧
    urlFilename hashSeedB "http://example.com/paper" = "1.pdf" ∧
    urlFilename hashSeedA "http://example.com/paper" ≠
      urlFilename hashSeedB "http://example.com/paper" := by
  refine ⟨?_, by decide, by decide, by decide⟩
  intro h url dir
  unfold urlCachePath pathJoin
  by_cases he : pyEndsWith (lastSeg url) ".pdf" = true
  · have hf : urlFilename h url = lastSeg url := by
      unfold urlFilename
      rw [if_pos he]
    rw [hf]
    exact pyEndsWithExt _ _ _ he
  · have hf : urlFilename h url = ((h url) % 4294967296).toNat.repr ++ ".pdf" := by
      unfold urlFilename
      rw [if_neg he]
    rw [hf]
    exact pyEndsWithExt _ _ _ (pyEndsWithAppend _ _)

/-- C4 (counterexample): the kind token accepted by the code for the
repository path is `"arxiv"`, not `"repository"`: invoking with kind
`"repository"` does not dispatch but fails with the unknown-source error. -/
theorem c4_counterexample :
    mainModel env0 ["download_paper.py", "repository", "paper.pdf"] =
      (Output.failure "Unknown source type: repository", 1) := by
  decide

/-- C4 (amended): the command takes exactly two positional arguments; with
fewer than two it prints the usage error object and exits with status 1; a
kind whose lowercasing is `"arxiv"`, `"local"` or `"url"` dispatches to the
corresponding route, and any other kind fails with the unknown-source
error. -/
theorem c4_cli_contract :
    (∀ env argv, argv.length < 3 →
       mainModel env argv = (Output.failure usageMsg, 1)) ∧
    routeOf "arxiv" = Route.arxiv ∧
    routeOf "local" = Route.localFile ∧
    routeOf "url" = Route.url ∧
    (∀ env a0 st src rest, routeOf (pyLower st) = Route.unknown →
       mainModel env (a0 :: st :: src :: rest) =
         (Output.failure ("Unknown source type: " ++ pyLower st), 1)) := by
  refine ⟨?_, rfl, rfl, rfl, ?_⟩
  · intro env argv h
    rcases argv with _ | ⟨a, _ | ⟨b, _ | ⟨c, rest⟩⟩⟩
    · rfl
    · rfl
    · rfl
    · simp only [List.length_cons] at h
      omega
  · intro env a0 st src rest h
    have hres : resolveSource env (pyLower st) src (cacheDirOf env) =
        .error ("Unknown source type: " ++ pyLower st) := by
      unfold resolveSource
      rw [h]
    simp [mainModel, hres]

/-- C4 (witness): the usage error and the unknown-source error at concrete
inputs. -/
theorem c4_cli_contract_witness :
    mainModel env0 ["download_paper.py"] = (Output.failure usageMsg, 1) ∧
    mainModel env0 ["download_paper.py", "XYZ", "v"] =
      (Output.failure ("Unknown source type: " ++ pyLower "XYZ"), 1) :=
  ⟨c4_cli_contract.1 env0 ["download_paper.py"] (by decide),
   c4_cli_contract.2.2.2.2 env0 "download_paper.py" "XYZ" "v" [] (by decide)⟩

/-- C7: resolving an arXiv id whose cache file (derived from the normalized
id) already exists returns that path with zero network operations; and after
any successful resolution, a second resolution of the same id returns the
same path and the same file system with zero network operations, whatever
the index answers the second time. -/
theorem c7_arxiv_cache_idempotent :
    (∀ index arxiv_id cache_dir fs c,
       List.lookup (arxivCachePath cache_dir (normalizeArxivId arxiv_id)) fs.files =
         some c →
       download_arxiv index arxiv_id cache_dir fs =
         .ok (arxivCachePath cache_dir (normalizeArxivId arxiv_id), fs, 0)) ∧
    (∀ index arxiv_id cache_dir fs p fs1 n,
       download_arxiv index arxiv_id cache_dir fs = .ok (p, fs1, n) →
       ∀ index2, download_arxiv index2 arxiv_id cache_dir fs1 = .ok (p, fs1, 0)) := by
  constructor
  · intro index arxiv_id cache_dir fs c h
    unfold download_arxiv
    rw [if_pos (by simp [fsHas, h])]
  · intro index arxiv_id cache_dir fs p fs1 n h index2
    unfold download_arxiv at h ⊢
    by_cases hhit : fsHas fs (arxivCachePath cache_dir (normalizeArxivId arxiv_id)) = true
    · rw [if_pos hhit] at h
      simp only [Except.ok.injEq, Prod.mk.injEq] at h
      obtain ⟨hp, hfs, hn⟩ := h
      rw [← hp, ← hfs, if_pos hhit]
    · rw [if_neg hhit] at h
      cases hidx : index (normalizeArxivId arxiv_id) with
      | none =>
        rw [hidx] at h
        exact absurd h (by simp)
      | some b =>
        rw [hidx] at h
        simp only [Except.ok.injEq, Prod.mk.injEq] at h
        obtain ⟨hp, hfs, hn⟩ := h
        rw [← hp, ← hfs]
        rw [if_pos (by simp [fsHas, fsWrite, List.lookup])]

/-- C7 (witness): with the paper already cached, both a direct cache hit and
a second resolution after a fresh download return the cached path with zero
network operations. -/
theorem c7_arxiv_cache_idempotent_witness :
    download_arxiv idxNone "1234.5678" "/tmp/paper_cache" fsC7 =
      .ok (arxivPathW, fsC7, 0) ∧
    download_arxiv idxNone "arXiv:1234.5678" "/tmp/paper_cache" fsC7 =
      .ok (arxivPathW, fsC7, 0) :=
  ⟨c7_arxiv_cache_idempotent.1 idxNone "1234.5678" "/tmp/paper_cache" fsC7 "PDFBYTES" rfl,
   c7_arxiv_cache_idempotent.2 idxPdf "arXiv:1234.5678" "/tmp/paper_cache" ⟨[]⟩
     arxivPathW fsC7 2 rfl idxNone⟩

/-- C8: if the resolver fails, `main` prints exactly the error envelope with
that message and exits 1; if the resolver succeeds and the extractor fails,
likewise; and every run ends either in a single failure envelope with exit
code 1 or a single success document with exit code 0 — never both, and never
a partial document. -/
theorem c8_error_envelope :
    (∀ env a0 st src rest e,
       resolveSource env (pyLower st) src (cacheDirOf env) = .error e →
       mainModel env (a0 :: st :: src :: rest) = (Output.failure e, 1)) ∧
    (∀ env a0 st src rest p fs1 n e,
       resolveSource env (pyLower st) src (cacheDirOf env) = .ok (p, fs1, n) →
       env.pages p = .error e →
       mainModel env (a0 :: st :: src :: rest) = (Output.failure e, 1)) ∧
    (∀ env argv,
       (∃ m, mainModel env argv = (Output.failure m, 1)) ∨
       (∃ d, mainModel env argv = (Output.success d, 0))) := by
  refine ⟨?_, ?_, ?_⟩
  · intro env a0 st src rest e h
    simp [mainModel, h]
  · intro env a0 st src rest p fs1 n e h1 h2
    simp [mainModel, h1, h2]
  · intro env argv
    rcases argv with _ | ⟨a, _ | ⟨st, _ | ⟨src, rest⟩⟩⟩
    · exact Or.inl ⟨usageMsg, rfl⟩
    · exact Or.inl ⟨usageMsg, rfl⟩
    · exact Or.inl ⟨usageMsg, rfl⟩
    · rcases hres : resolveSource env (pyLower st) src (cacheDirOf env) with e | v
      · exact Or.inl ⟨e, by simp [mainModel, hres]⟩
      · obtain ⟨p, fs1, n⟩ := v
        rcases hp : env.pages p with e | pgs
        · exact Or.inl ⟨e, by simp [mainModel, hres, hp]⟩
        · refine Or.inr
            ⟨{ title := (extract_text p pgs).title,
               pdf_path := (extract_text p pgs).pdf_path,
               pages := (extract_text p pgs).pages,
               text := (extract_text p pgs).text,
               sections := (extract_text p pgs).sections,
               source := src, source_type := pyLower st }, ?_⟩
          simp [mainModel, hres, hp]

/-- C8 (witness): a resolver failure (missing local file, with the kind
given in upper case) and an extractor failure both collapse to the single
error envelope with exit code 1. -/
theorem c8_error_envelope_witness :
    mainModel env0 ["download_paper.py", "LOCAL", "nope.pdf"] =
      (Output.failure "File not found: nope.pdf", 1) ∧
    mainModel env1 ["download_paper.py", "local", "f.pdf"] =
      (Output.failure "cannot open document", 1) :=
  ⟨c8_error_envelope.1 env0 "download_paper.py" "LOCAL" "nope.pdf" [] _ rfl,
   c8_error_envelope.2.1 env1 "download_paper.py" "local" "f.pdf" []
     "f.pdf" env1.fs 0 _ rfl rfl⟩

/-- C10: the URL cache key ignores everything but the last path segment when
that segment ends in `".pdf"`: two distinct URLs with the same last segment
share one cache path (whatever the hash seeds); once the first has been
fetched, resolving the second performs zero network operations and returns
the same path and file system; and a resolution that did fetch (one network
operation) stored exactly the first URL's response body at the returned
path. -/
theorem c10_url_cache_collision :
    (∀ u1 u2 h1 h2 dir, u1 ≠ u2 → lastSeg u1 = lastSeg u2 →
       pyEndsWith (lastSeg u1) ".pdf" = true →
       urlCachePath h1 u1 dir = urlCachePath h2 u2 dir) ∧
    (∀ net h u1 u2 dir fs p fs1 n, lastSeg u1 = lastSeg u2 →
       pyEndsWith (lastSeg u1) ".pdf" = true →
       download_url net h u1 dir fs = .ok (p, fs1, n) →
       ∀ net2 h2, download_url net2 h2 u2 dir fs1 = .ok (p, fs1, 0)) ∧
    (∀ net h u dir fs p fs1,
       download_url net h u dir fs = .ok (p, fs1, 1) →
       List.lookup p fs1.files = net u) := by
  have key : ∀ (h1 h2 : String → Int) u1 u2 dir, lastSeg u1 = lastSeg u2 →
      pyEndsWith (lastSeg u1) ".pdf" = true →
      urlCachePath h1 u1 dir = urlCachePath h2 u2 dir := by
    intro h1 h2 u1 u2 dir hseg hends
    unfold urlCachePath urlFilename
    rw [← hseg, if_pos hends, if_pos hends]
  refine ⟨fun u1 u2 h1 h2 dir _ => key h1 h2 u1 u2 dir, ?_, ?_⟩
  · intro net h u1 u2 dir fs p fs1 n hseg hends hok net2 h2
    have hpath : urlCachePath h2 u2 dir = urlCachePath h u1 dir :=
      (key h h2 u1 u2 dir hseg hends).symm
    unfold download_url at hok ⊢
    rw [hpath]
    by_cases hhit : fsHas fs (urlCachePath h u1 dir) = true
    · rw [if_pos hhit] at hok
      simp only [Except.ok.injEq, Prod.mk.injEq] at hok
      obtain ⟨hp, hfs, hn⟩ := hok
      rw [← hp, ← hfs, if_pos hhit]
    · rw [if_neg hhit] at hok
      cases hnet : net u1 with
      | none =>
        rw [hnet] at hok
        exact absurd hok (by simp)
      | some b =>
        rw [hnet] at hok
        simp only [Except.ok.injEq, Prod.mk.injEq] at hok
        obtain ⟨hp, hfs, hn⟩ := hok
        rw [← hp, ← hfs]
        rw [if_pos (by simp [fsHas, fsWrite, List.lookup])]
  · intro net h u dir fs p fs1 hok
    unfold download_url at hok
    by_cases hhit : fsHas fs (urlCachePath h u dir) = true
    · rw [if_pos hhit] at hok
      simp only [Except.ok.injEq, Prod.mk.injEq] at hok
      omega
    · rw [if_neg hhit] at hok
      cases hnet : net u with
      | none =>
        rw [hnet] at hok
        exact absurd hok (by simp)
      | some b =>
        rw [hnet] at hok
        simp only [Except.ok.injEq, Prod.mk.injEq] at hok
        obtain ⟨hp, hfs, _⟩ := hok
        rw [← hp, ← hfs]
        simp [fsWrite, List.lookup]

/-- C10 (witness): `http://a.example/x.pdf` and `http://b.example/x.pdf`
share the cache path `/tmp/paper_cache/x.pdf` under any hash seeds; after
fetching the first, resolving the second is a pure cache hit; and the cached
bytes are the first URL's response. -/
theorem c10_url_cache_collision_witness :
    urlCachePath hashSeedA "http://a.example/x.pdf" "/tmp/paper_cache" =
      urlCachePath hashSeedB "http://b.example/x.pdf" "/tmp/paper_cache" ∧
    download_url netNone hashSeedB "http://b.example/x.pdf" "/tmp/paper_cache"
        ⟨[("/tmp/paper_cache/x.pdf", "RESPONSE")]⟩ =
      .ok ("/tmp/paper_cache/x.pdf", ⟨[("/tmp/paper_cache/x.pdf", "RESPONSE")]⟩, 0) ∧
    List.lookup "/tmp/paper_cache/x.pdf"
        (FS.mk [("/tmp/paper_cache/x.pdf", "RESPONSE")]).files =
      netPdf "http://a.example/x.pdf" :=
  ⟨c10_url_cache_collision.1 "http://a.example/x.pdf" "http://b.example/x.pdf"
     hashSeedA hashSeedB "/tmp/paper_cache" (by decide) (by decide) (by decide),
   c10_url_cache_collision.2.1 netPdf hashSeedA "http://a.example/x.pdf"
     "http://b.example/x.pdf" "/tmp/paper_cache" ⟨[]⟩ "/tmp/paper_cache/x.pdf"
     ⟨[("/tmp/paper_cache/x.pdf", "RESPONSE")]⟩ 1 (by decide) (by decide) rfl
     netNone hashSeedB,
   c10_url_cache_collision.2.2 netPdf hashSeedA "http://a.example/x.pdf"
     "/tmp/paper_cache" ⟨[]⟩ "/tmp/paper_cache/x.pdf"
     ⟨[("/tmp/paper_cache/x.pdf", "RESPONSE")]⟩ rfl⟩
